import Mathlib

/-!
Verification development for the IntelliREADME project-analysis and
README-generation engine.  The definitions below are shallow embeddings of
the TypeScript sources (`src/utils/fileUtils.ts`, `src/utils/projectAnalyzer.ts`,
`src/utils/badgeGenerator.ts` (BadgeGenerator / ConfigManager / GroqService),
`src/templates/readmeGenerator.ts`, `src/services/TemplateService.ts`,
`src/extension.ts`).  Strings are modelled through their character lists;
filesystem trees are modelled as an inductive type; the external HTTP call of
the AI strategy is modelled as a function from model identifier to a mock
response.
-/

set_option autoImplicit false
set_option maxRecDepth 8000

namespace IntelliReadme

/-! ## String primitives (models of the JavaScript string operations) -/

/-- Model of JavaScript `String.prototype.startsWith`. -/
def jsStartsWith (s pat : String) : Bool :=
  pat.data.isPrefixOf s.data

/-- Substring search on character lists: does `pat` occur inside `hay`?
Model of JavaScript's case-sensitive `String.prototype.includes`. -/
def subList : (hay pat : List Char) → Bool
  | hay, pat =>
    pat.isPrefixOf hay ||
      match hay with
      | [] => false
      | _ :: t => subList t pat

/-- Model of JavaScript `String.prototype.includes` (case-sensitive). -/
def jsIncludes (s pat : String) : Bool :=
  subList s.data pat.data

/-- ASCII lower-casing of one character (the fragment of
`String.prototype.toLowerCase` exercised by this code base). -/
def lowerChar (c : Char) : Char :=
  if 'A' ≤ c ∧ c ≤ 'Z' then Char.ofNat (c.toNat + 32) else c

/-- ASCII upper-casing of one character. -/
def upperChar (c : Char) : Char :=
  if 'a' ≤ c ∧ c ≤ 'z' then Char.ofNat (c.toNat - 32) else c

/-- Model of JavaScript `String.prototype.toLowerCase` (ASCII fragment). -/
def jsToLower (s : String) : String :=
  ⟨s.data.map lowerChar⟩

/-- JavaScript whitespace test used by `String.prototype.trim`. -/
def isJsWs (c : Char) : Bool :=
  c = ' ' || c = '\t' || c = '\n' || c = '\r'

/-- Model of JavaScript `String.prototype.trim`. -/
def jsTrim (s : String) : String :=
  ⟨((s.data.dropWhile isJsWs).reverse.dropWhile isJsWs).reverse⟩

/-- Model of JavaScript `Array.prototype.join(" ")`. -/
def joinSp : List String → String
  | [] => ""
  | [s] => s
  | s :: rest => s ++ " " ++ joinSp rest

/-- Model of JavaScript `Array.prototype.join("\n")`. -/
def joinNl : List String → String
  | [] => ""
  | [s] => s
  | s :: rest => s ++ "\n" ++ joinNl rest

/-- Last index of `'.'` in a character list, if any (position from the front). -/
def lastDotIdx (cs : List Char) : Option Nat :=
  (List.range cs.length).foldl
    (fun acc i => if cs.get? i = some '.' then some i else acc) none

/-- Model of Node's `path.extname`: the suffix starting at the last `'.'`,
empty when there is no dot or the only dot is the leading character. -/
def extname (name : String) : String :=
  match lastDotIdx name.data with
  | none => ""
  | some 0 => ""
  | some i => ⟨name.data.drop i⟩

/-! ### Lemmas about the string primitives -/

theorem subList_of_isPrefixOf {hay pat : List Char} (h : pat.isPrefixOf hay) :
    subList hay pat = true := by
  unfold subList
  simp [h]

theorem subList_cons {hay pat : List Char} (c : Char)
    (h : subList hay pat = true) : subList (c :: hay) pat = true := by
  unfold subList
  cases hp : pat.isPrefixOf (c :: hay) <;> simp [hp, h]

theorem subList_append_left {pre hay pat : List Char}
    (h : subList hay pat = true) : subList (pre ++ hay) pat = true := by
  induction pre with
  | nil => simpa using h
  | cons c pre ih => exact subList_cons c ih

theorem isPrefixOf_append_right (pat post : List Char) :
    pat.isPrefixOf (pat ++ post) = true := by
  induction pat with
  | nil => simp [List.isPrefixOf]
  | cons c cs ih => simp [List.isPrefixOf, ih]

/-- A pattern occurring between two other pieces is found by `subList`. -/
theorem subList_sandwich (pre pat post : List Char) :
    subList (pre ++ (pat ++ post)) pat = true :=
  subList_append_left (subList_of_isPrefixOf (isPrefixOf_append_right pat post))

/-- `jsIncludes` holds whenever the string decomposes around the pattern. -/
theorem jsIncludes_of_decomp {s pre pat post : String}
    (h : s.data = pre.data ++ (pat.data ++ post.data)) :
    jsIncludes s pat = true := by
  unfold jsIncludes
  rw [h]
  exact subList_sandwich pre.data pat.data post.data

theorem data_append (s t : String) : (s ++ t).data = s.data ++ t.data := rfl

/-- Membership in a string list puts the member inside the space-join. -/
theorem joinSp_decomp {x : String} {l : List String} (h : x ∈ l) :
    ∃ pre post : List Char, (joinSp l).data = pre ++ (x.data ++ post) := by
  induction l with
  | nil => cases h
  | cons s rest ih =>
    rcases List.mem_cons.mp h with rfl | hmem
    · cases rest with
      | nil => exact ⟨[], [], by simp [joinSp]⟩
      | cons t ts =>
        refine ⟨[], (" " ++ joinSp (t :: ts)).data, ?_⟩
        simp [joinSp, data_append]
    · cases rest with
      | nil => cases hmem
      | cons t ts =>
        obtain ⟨pre, post, hp⟩ := ih hmem
        refine ⟨(s ++ " ").data ++ pre, post, ?_⟩
        show (s ++ " " ++ joinSp (t :: ts)).data = _
        simp [data_append, hp]

/-- Lower-casing a string lower-cases its member-wise join decomposition. -/
theorem jsToLower_data (s : String) : (jsToLower s).data = s.data.map lowerChar := rfl

/-! ## Data model: `ProjectInfo` (src/models/ProjectInfo.ts) -/

/-- Embedding of the `ProjectInfo` interface.  Optional fields of the
TypeScript interface become `Option String`; `workspacePath` is kept only as
the basename-derived name and the filesystem inputs are passed separately to
the functions that read them. -/
structure ProjectInfo where
  name : String
  description : Option String := none
  dependencies : List String := []
  devDependencies : List String := []
  scripts : List String := []
  fileTypes : List String := []
  hasTests : Bool := false
  license : Option String := none
  repository : Option String := none
  framework : Option String := none
  version : Option String := none
  author : Option String := none
  homepage : Option String := none
deriving Repr

/-! ## Filesystem model

A directory listing is modelled by `FSForest`: the ordered sequence of
entries `readdirSync` returns, where a directory entry carries its own
listing.  (A rose-tree-with-sibling-spine shape is used so that every
function below is plain structural recursion and evaluates in the kernel.) -/

inductive FSForest where
  | nil : FSForest
  | fileCons (name : String) (rest : FSForest) : FSForest
  | dirCons (name : String) (children : FSForest) (rest : FSForest) : FSForest
deriving Repr

namespace FileUtils

/-- The entry filter shared by both scans in `fileUtils.ts`:
`file.startsWith(".") || file === "node_modules"`. -/
def skipEntry (name : String) : Bool :=
  jsStartsWith name "." || name = "node_modules"

/-- `Set.add` on the accumulated extension list (insertion order kept,
duplicates ignored), guarded by `if (ext)` as in the source. -/
def addExt (acc : List String) (name : String) : List String :=
  let ext := extname name
  if ext = "" then acc
  else if acc.contains ext then acc else acc ++ [ext]

/-- Embedding of the `scanDirectory` closure of `FileUtils.getFileTypes`
(src/utils/fileUtils.ts lines 8-25).  `depth` is the depth of the directory
whose listing is being walked; the `depth > 2` entry guard of the source is
inlined at the recursive call site (it reads `if depth + 1 > 2 then acc`),
and descent into a subdirectory happens only when `depth < 2`. -/
def scanF : Nat → List String → FSForest → List String
  | _, acc, .nil => acc
  | depth, acc, .fileCons n rest =>
      scanF depth (if skipEntry n then acc else addExt acc n) rest
  | depth, acc, .dirCons n cs rest =>
      let acc2 :=
        if skipEntry n then acc
        else if depth < 2 then
          (if depth + 1 > 2 then acc else scanF (depth + 1) acc cs)
        else acc
      scanF depth acc2 rest

/-- Embedding of `FileUtils.getFileTypes`: scan the root listing at depth 0.
The try/catch of the source only matters for filesystem errors, which the
tree model does not produce. -/
def getFileTypes (root : FSForest) : List String :=
  scanF 0 [] root

/-- Test-name predicate on a file entry (lines 46-52):
lowercased name contains `test` or `spec`, or the raw name contains
`.test.` or `.spec.`. -/
def fileIsTest (n : String) : Bool :=
  jsIncludes (jsToLower n) "test" || jsIncludes (jsToLower n) "spec" ||
    jsIncludes n ".test." || jsIncludes n ".spec."

/-- Test-name predicate on a directory entry, before descending (lines 53-59). -/
def dirNameIsTest (n : String) : Bool :=
  jsIncludes (jsToLower n) "test" || jsIncludes (jsToLower n) "spec" ||
    n = "__tests__"

/-- Embedding of the `checkDirectory` closure of `FileUtils.hasTestFiles`
(src/utils/fileUtils.ts lines 36-63).  The `depth > 2` guard at the head of
the source function is inlined at the recursive call site
(`if depth + 1 > 2 then false`). -/
def checkF : Nat → FSForest → Bool
  | _, .nil => false
  | depth, .fileCons n rest =>
      (if skipEntry n then false else fileIsTest n) || checkF depth rest
  | depth, .dirCons n cs rest =>
      (if skipEntry n then false
       else dirNameIsTest n ||
         (if depth + 1 > 2 then false else checkF (depth + 1) cs)) ||
      checkF depth rest

/-- Embedding of `FileUtils.hasTestFiles`: check the root listing at depth 0. -/
def hasTestFiles (root : FSForest) : Bool :=
  checkF 0 root

/-- Embedding of `FileUtils.getInstallCommand`; the two `fs.existsSync`
lockfile probes are passed in as booleans. -/
def getInstallCommand (pnpmLock yarnLock : Bool) : String :=
  if pnpmLock then "pnpm install"
  else if yarnLock then "yarn install"
  else "npm install"

/-- Embedding of `FileUtils.getStartCommand`. -/
def getStartCommand (info : ProjectInfo) (pnpmLock : Bool) : String :=
  if info.scripts.contains "dev" then
    (if pnpmLock then "pnpm dev" else "npm run dev")
  else
    (if pnpmLock then "pnpm start" else "npm start")

/-- Truncation of a listing to `b` further levels below its entries: a
directory entry with budget 0 keeps its name but loses its children.
`truncF 2 root` is exactly the part of the tree the two scans can reach:
the root's children (depth 1), grandchildren (depth 2) and
great-grandchildren (depth 3), with directories at depth 3 emptied. -/
def truncF : Nat → FSForest → FSForest
  | _, .nil => .nil
  | b, .fileCons n rest => .fileCons n (truncF b rest)
  | 0, .dirCons n _ rest => .dirCons n .nil (truncF 0 rest)
  | b + 1, .dirCons n cs rest => .dirCons n (truncF b cs) (truncF (b + 1) rest)

theorem scanF_truncF (f : FSForest) :
    ∀ (d b : Nat) (acc : List String), d + b = 2 →
      scanF d acc (truncF b f) = scanF d acc f := by
  induction f with
  | nil => intro d b acc _; cases b <;> rfl
  | fileCons n rest ih =>
    intro d b acc h
    cases b <;> (simp only [truncF, scanF]; exact ih d _ _ h)
  | dirCons n cs rest ihc ihr =>
    intro d b acc h
    cases b with
    | zero =>
      have hd : d = 2 := by omega
      subst hd
      simp only [truncF, scanF]
      norm_num
      exact ihr 2 0 _ rfl
    | succ b =>
      simp only [truncF, scanF]
      rw [ihc (d + 1) b acc (by omega)]
      exact ihr d (b + 1) _ h

theorem checkF_truncF (f : FSForest) :
    ∀ (d b : Nat), d + b = 2 → checkF d (truncF b f) = checkF d f := by
  induction f with
  | nil => intro d b _; cases b <;> rfl
  | fileCons n rest ih =>
    intro d b h
    cases b <;> (simp only [truncF, checkF]; rw [ih d _ h])
  | dirCons n cs rest ihc ihr =>
    intro d b h
    cases b with
    | zero =>
      have hd : d = 2 := by omega
      subst hd
      simp only [truncF, checkF]
      norm_num
      rw [ihr 2 0 rfl]
    | succ b =>
      simp only [truncF, checkF]
      rw [ihc (d + 1) b (by omega), ihr d (b + 1) h]

end FileUtils

/-! ## ProjectAnalyzer (src/utils/projectAnalyzer.ts) -/

namespace ProjectAnalyzer

/-- The fields `analyzeProject` extracts from a parsed `package.json`.
`repository` stands for `packageJson.repository?.url || packageJson.repository`
and `author` for `packageJson.author?.name || packageJson.author`, both
flattened to the resulting string; the three key lists are
`Object.keys(... || {})` in declaration order. -/
structure PackageJson where
  name : Option String := none
  description : Option String := none
  license : Option String := none
  repository : Option String := none
  version : Option String := none
  author : Option String := none
  homepage : Option String := none
  dependencies : List String := []
  devDependencies : List String := []
  scripts : List String := []

/-- State of `package.json` at the workspace root: missing, present but
rejected by `JSON.parse` (the catch branch), or parsed. -/
inductive ManifestState where
  | absent : ManifestState
  | unparsable : ManifestState
  | parsed (m : PackageJson) : ManifestState

/-- Embedding of `ProjectAnalyzer.detectFramework`
(src/utils/projectAnalyzer.ts lines 54-68).  `deps.some((dep) =>
dep.includes(...))` is a substring test on each name; the `.py` test is
`Array.prototype.includes`, exact membership in `fileTypes`. -/
def detectFramework (info : ProjectInfo) : String :=
  let deps := info.dependencies ++ info.devDependencies
  if deps.any (fun dep => jsIncludes dep "next") then "Next.js"
  else if deps.any (fun dep => jsIncludes dep "nuxt") then "Nuxt.js"
  else if deps.any (fun dep => jsIncludes dep "react") then "React"
  else if deps.any (fun dep => jsIncludes dep "vue") then "Vue.js"
  else if deps.any (fun dep => jsIncludes dep "angular") then "Angular"
  else if deps.any (fun dep => jsIncludes dep "express") then "Express.js"
  else if deps.any (fun dep => jsIncludes dep "nestjs") then "NestJS"
  else if info.fileTypes.contains ".py" then "Python"
  else if deps.length > 0 then "Node.js"
  else "Software"

/-- Embedding of `ProjectAnalyzer.analyzeProject`
(src/utils/projectAnalyzer.ts lines 7-52).  `workspaceName` is
`path.basename(workspacePath)`; the filesystem scans are passed in as their
results.  When the manifest is absent the read is skipped; when it is
unparsable, `JSON.parse` throws before any field assignment, so every
manifest-derived field keeps its default.  `packageJson.name ||
projectInfo.name` is the JavaScript falsy-or: an empty manifest name also
falls back to the folder name. -/
def analyzeProject (workspaceName : String) (manifest : ManifestState)
    (fileTypes : List String) (hasTests : Bool) : ProjectInfo :=
  let base : ProjectInfo := { name := workspaceName }
  let withManifest : ProjectInfo :=
    match manifest with
    | .parsed m =>
        { base with
          name := match m.name with
                  | some n => if n = "" then workspaceName else n
                  | none => workspaceName
          description := m.description
          license := m.license
          repository := m.repository
          version := m.version
          author := m.author
          homepage := m.homepage
          dependencies := m.dependencies
          devDependencies := m.devDependencies
          scripts := m.scripts }
    | _ => base
  let scanned : ProjectInfo :=
    { withManifest with fileTypes := fileTypes, hasTests := hasTests }
  { scanned with framework := some (detectFramework scanned) }

/-- The disjunction of the framework triggers of `detectFramework` that
precede its final two branches: true exactly when some dependency name
contains one of the seven framework substrings or a `.py` file extension is
present. -/
def frameworkSignal (info : ProjectInfo) : Bool :=
  (info.dependencies ++ info.devDependencies).any (fun dep => jsIncludes dep "next") ||
  (info.dependencies ++ info.devDependencies).any (fun dep => jsIncludes dep "nuxt") ||
  (info.dependencies ++ info.devDependencies).any (fun dep => jsIncludes dep "react") ||
  (info.dependencies ++ info.devDependencies).any (fun dep => jsIncludes dep "vue") ||
  (info.dependencies ++ info.devDependencies).any (fun dep => jsIncludes dep "angular") ||
  (info.dependencies ++ info.devDependencies).any (fun dep => jsIncludes dep "express") ||
  (info.dependencies ++ info.devDependencies).any (fun dep => jsIncludes dep "nestjs") ||
  info.fileTypes.contains ".py"

theorem detectFramework_fallback (info : ProjectInfo)
    (hf : frameworkSignal info = false) :
    detectFramework info =
      (if (info.dependencies ++ info.devDependencies).length > 0 then "Node.js"
       else "Software") := by
  simp only [frameworkSignal, Bool.or_eq_false_iff, and_assoc] at hf
  obtain ⟨g1, g2, g3, g4, g5, g6, g7, g8⟩ := hf
  have g8m : ".py" ∉ info.fileTypes := by simpa using g8
  simp [detectFramework, g1, g2, g3, g4, g5, g6, g7, g8m]

end ProjectAnalyzer

/-! ## GroqService (src/services/GroqService.ts, shipped inside
src/utils/badgeGenerator.ts lines 558-1077) -/

namespace GroqService

/-- Result record of `performDeepProjectAnalysis`. -/
structure ProjectAnalysis where
  projectType : String
  mainPurpose : String
  keyTechnologies : List String
  frameworkDetails : String
  specialFeatures : List String
  architectureNotes : String
  deploymentHints : String
  projectStructure : String
deriving Repr

/-- The mutable locals of `performDeepProjectAnalysis` with their initial
values (src/utils/badgeGenerator.ts lines 734-740). -/
structure AnalysisState where
  projectType : String := "Application"
  mainPurpose : String := "A modern software application"
  keyTechnologies : List String := []
  frameworkDetails : String := ""
  specialFeatures : List String := []
  architectureNotes : String := ""
  deploymentHints : String := ""
deriving Repr

/-- Embedding of the name/keyword overlay block of
`performDeepProjectAnalysis` (src/utils/badgeGenerator.ts lines 903-957):
an `if / else if / ... / else if` chain over the lowercased project name and
the joined dependency string, updating `mainPurpose` and appending to
`specialFeatures`. -/
def applyNameOverlays (projectName allDeps : String)
    (mainPurpose : String) (specialFeatures : List String) :
    String × List String :=
  if jsIncludes projectName "weather" || jsIncludes projectName "klimate" ||
      jsIncludes allDeps "weather" then
    ("A comprehensive weather application providing real-time weather data and forecasts",
     specialFeatures ++
       ["Real-time weather data", "Location services", "Weather forecasts",
        "Interactive charts"])
  else if jsIncludes projectName "todo" || jsIncludes projectName "task" then
    ("A task management application for organizing and tracking activities",
     specialFeatures ++
       ["Task creation and management", "Priority settings", "Progress tracking"])
  else if jsIncludes projectName "ecommerce" || jsIncludes projectName "shop" ||
      jsIncludes allDeps "stripe" then
    ("An e-commerce platform for online shopping and sales",
     specialFeatures ++
       ["Product catalog", "Shopping cart", "Payment processing",
        "Order management"])
  else if jsIncludes projectName "blog" || jsIncludes allDeps "contentful" then
    ("A content management system for publishing and managing articles",
     specialFeatures ++
       ["Content creation", "Publishing system", "SEO optimization"])
  else if jsIncludes projectName "chat" || jsIncludes projectName "message" ||
      jsIncludes allDeps "socket.io" then
    ("A real-time communication platform for messaging and collaboration",
     specialFeatures ++
       ["Real-time messaging", "User presence", "Message history"])
  else (mainPurpose, specialFeatures)

/-- One overlay rule, as the specification describes the overlay pass:
a trigger over (lowercased project name, joined dependency string), the
purpose it sets and the features it appends. -/
structure OverlayRule where
  trigger : String → String → Bool
  purpose : String
  features : List String

/-- The five overlay rules in the listed order (weather; todo/task;
ecommerce/shop/stripe; blog/contentful; chat/message/socket.io). -/
def overlayRules : List OverlayRule :=
  [{ trigger := fun projectName allDeps =>
       jsIncludes projectName "weather" || jsIncludes projectName "klimate" ||
         jsIncludes allDeps "weather"
     purpose := "A comprehensive weather application providing real-time weather data and forecasts"
     features := ["Real-time weather data", "Location services",
                  "Weather forecasts", "Interactive charts"] },
   { trigger := fun projectName _ =>
       jsIncludes projectName "todo" || jsIncludes projectName "task"
     purpose := "A task management application for organizing and tracking activities"
     features := ["Task creation and management", "Priority settings",
                  "Progress tracking"] },
   { trigger := fun projectName allDeps =>
       jsIncludes projectName "ecommerce" || jsIncludes projectName "shop" ||
         jsIncludes allDeps "stripe"
     purpose := "An e-commerce platform for online shopping and sales"
     features := ["Product catalog", "Shopping cart", "Payment processing",
                  "Order management"] },
   { trigger := fun projectName allDeps =>
       jsIncludes projectName "blog" || jsIncludes allDeps "contentful"
     purpose := "A content management system for publishing and managing articles"
     features := ["Content creation", "Publishing system", "SEO optimization"] },
   { trigger := fun projectName allDeps =>
       jsIncludes projectName "chat" || jsIncludes projectName "message" ||
         jsIncludes allDeps "socket.io"
     purpose := "A real-time communication platform for messaging and collaboration"
     features := ["Real-time messaging", "User presence", "Message history"] }]

/-- First-match semantics over `overlayRules`: the first rule whose trigger
matches sets `mainPurpose` and appends its features; later rules are never
applied; with no match the state is unchanged. -/
def applyFirstOverlay (projectName allDeps : String)
    (mainPurpose : String) (specialFeatures : List String) :
    String × List String :=
  match overlayRules.find? (fun r => r.trigger projectName allDeps) with
  | some r => (r.purpose, specialFeatures ++ r.features)
  | none => (mainPurpose, specialFeatures)

/-- The mutually exclusive category cascade of `performDeepProjectAnalysis`
(src/utils/badgeGenerator.ts lines 742-901): rules 1-7 over the derived
lowercase strings, leaving the `Application` defaults when none matches. -/
def categoryCascade (allDeps scripts fileTypes : String) : AnalysisState :=
  let s0 : AnalysisState := {}
    if jsIncludes allDeps "express" || jsIncludes allDeps "fastify" ||
        jsIncludes allDeps "koa" || jsIncludes allDeps "nestjs" ||
        jsIncludes fileTypes "controller" || jsIncludes scripts "start" then
      { s0 with
        projectType := "Backend API"
        mainPurpose := "A robust backend API service providing RESTful endpoints"
        keyTechnologies := s0.keyTechnologies ++
          ["Node.js", "Express/Fastify", "API Development"]
        frameworkDetails := "Built with modern Node.js framework"
        specialFeatures := s0.specialFeatures ++
          ["RESTful API endpoints", "Middleware integration",
           "Database connectivity"]
        architectureNotes := "Follows REST architectural patterns" }
    else if jsIncludes allDeps "react" then
      let sR : AnalysisState :=
        { s0 with
          projectType := "React Application"
          frameworkDetails := "Built with React ecosystem"
          keyTechnologies := s0.keyTechnologies ++
            ["React", "JavaScript/TypeScript", "Modern Frontend"] }
      let sSub : AnalysisState :=
        if jsIncludes allDeps "next" then
          { sR with
            projectType := "Next.js Application"
            mainPurpose := "A full-stack React application with server-side rendering"
            frameworkDetails := "Built with Next.js framework"
            specialFeatures := sR.specialFeatures ++
              ["Server-side rendering", "API routes", "Static generation",
               "Image optimization"]
            deploymentHints := "Deployable on Vercel, Netlify, or any Node.js server" }
        else if jsIncludes allDeps "vite" || jsIncludes scripts "vite" then
          { sR with
            mainPurpose := "A fast, modern React application built with Vite"
            specialFeatures := sR.specialFeatures ++
              ["Lightning-fast development", "Hot module replacement",
               "Optimized builds"]
            deploymentHints := "Builds to static files, deployable on any web server" }
        else
          { sR with
            mainPurpose := "A dynamic React application with modern user interface"
            specialFeatures := sR.specialFeatures ++
              ["Component-based architecture", "Virtual DOM", "State management"] }
      { sSub with
        specialFeatures := sSub.specialFeatures ++
          (if jsIncludes allDeps "router" then ["Client-side routing"] else []) ++
          (if jsIncludes allDeps "redux" || jsIncludes allDeps "zustand" then
            ["State management"] else []) ++
          (if jsIncludes allDeps "query" || jsIncludes allDeps "swr" then
            ["Data fetching optimization"] else []) }
    else if jsIncludes allDeps "vue" then
      { s0 with
        projectType := "Vue.js Application"
        mainPurpose := "A progressive Vue.js application with reactive user interface"
        frameworkDetails := "Built with Vue.js framework"
        keyTechnologies := s0.keyTechnologies ++
          ["Vue.js", "JavaScript/TypeScript", "Frontend"]
        specialFeatures := s0.specialFeatures ++
          ["Reactive data binding", "Component composition", "Vue ecosystem"] }
    else if jsIncludes allDeps "angular" || jsIncludes allDeps "@angular" then
      { s0 with
        projectType := "Angular Application"
        mainPurpose := "A comprehensive Angular application with enterprise-grade features"
        frameworkDetails := "Built with Angular framework"
        keyTechnologies := s0.keyTechnologies ++
          ["Angular", "TypeScript", "Enterprise Frontend"]
        specialFeatures := s0.specialFeatures ++
          ["Dependency injection", "RxJS integration", "Angular CLI"] }
    else if jsIncludes allDeps "react-native" || jsIncludes allDeps "expo" then
      { s0 with
        projectType := "React Native Mobile App"
        mainPurpose := "A cross-platform mobile application for iOS and Android"
        frameworkDetails := "Built with React Native"
        keyTechnologies := s0.keyTechnologies ++
          ["React Native", "Mobile Development", "Cross-platform"]
        specialFeatures := s0.specialFeatures ++
          ["Native performance", "Cross-platform compatibility",
           "Mobile-optimized UI"] }
    else if jsIncludes allDeps "electron" then
      { s0 with
        projectType := "Desktop Application"
        mainPurpose := "A cross-platform desktop application built with web technologies"
        frameworkDetails := "Built with Electron framework"
        keyTechnologies := s0.keyTechnologies ++
          ["Electron", "Desktop Development", "Cross-platform"]
        specialFeatures := s0.specialFeatures ++
          ["Native desktop integration", "Cross-platform compatibility"] }
    else if jsIncludes fileTypes ".py" || jsIncludes allDeps "django" ||
        jsIncludes allDeps "flask" then
      let sP : AnalysisState :=
        if jsIncludes allDeps "django" then
          { s0 with
            projectType := "Python Application"
            mainPurpose := "A Django web application with robust backend functionality"
            frameworkDetails := "Built with Django framework"
            specialFeatures := s0.specialFeatures ++
              ["ORM integration", "Admin interface", "Security features"] }
        else if jsIncludes allDeps "flask" then
          { s0 with
            projectType := "Python Application"
            mainPurpose := "A lightweight Flask web application"
            frameworkDetails := "Built with Flask framework"
            specialFeatures := s0.specialFeatures ++
              ["Lightweight architecture", "Flexible routing", "Template engine"] }
        else
          { s0 with
            projectType := "Python Application"
            mainPurpose := "A Python application with modern development practices"
            frameworkDetails := "Built with Python" }
      { sP with
        keyTechnologies := sP.keyTechnologies ++ ["Python", "Backend Development"] }
    else s0

/-- The disjunction of the seven category triggers of the cascade, over the
same derived strings `performDeepProjectAnalysis` computes: true exactly when
one of classifier rules 1-7 matches. -/
def categorySignal (info : ProjectInfo) : Bool :=
  let deps := jsToLower (joinSp info.dependencies)
  let devDeps := jsToLower (joinSp info.devDependencies)
  let allDeps := deps ++ " " ++ devDeps
  let scripts := jsToLower (joinSp info.scripts)
  let fileTypes := joinSp info.fileTypes
  (jsIncludes allDeps "express" || jsIncludes allDeps "fastify" ||
    jsIncludes allDeps "koa" || jsIncludes allDeps "nestjs" ||
    jsIncludes fileTypes "controller" || jsIncludes scripts "start") ||
  jsIncludes allDeps "react" ||
  jsIncludes allDeps "vue" ||
  (jsIncludes allDeps "angular" || jsIncludes allDeps "@angular") ||
  (jsIncludes allDeps "react-native" || jsIncludes allDeps "expo") ||
  jsIncludes allDeps "electron" ||
  (jsIncludes fileTypes ".py" || jsIncludes allDeps "django" ||
    jsIncludes allDeps "flask")

/-- The name/keyword overlay pass as a state update (lines 903-957). -/
def nameOverlayStep (projectName allDeps : String) (s : AnalysisState) : AnalysisState :=
  let overlaid := applyNameOverlays projectName allDeps s.mainPurpose s.specialFeatures
  { s with mainPurpose := overlaid.1, specialFeatures := overlaid.2 }

/-- The technology-specific additions (lines 959-987): TypeScript, Tailwind,
ORM and testing-framework detection, each appending to `keyTechnologies` and
`specialFeatures`. -/
def techAdditions (allDeps fileTypes : String) (s2 : AnalysisState) : AnalysisState :=
  let s3 : AnalysisState :=
    if jsIncludes allDeps "typescript" || jsIncludes fileTypes ".ts" ||
        jsIncludes fileTypes ".tsx" then
      { s2 with
        keyTechnologies := s2.keyTechnologies ++ ["TypeScript"]
        specialFeatures := s2.specialFeatures ++
          ["Type safety", "Enhanced development experience"] }
    else s2
  let s4 : AnalysisState :=
    if jsIncludes allDeps "tailwind" then
      { s3 with
        keyTechnologies := s3.keyTechnologies ++ ["Tailwind CSS"]
        specialFeatures := s3.specialFeatures ++
          ["Utility-first styling", "Responsive design system"] }
    else s3
  let s5 : AnalysisState :=
    if jsIncludes allDeps "prisma" || jsIncludes allDeps "mongoose" ||
        jsIncludes allDeps "sequelize" then
      { s4 with
        keyTechnologies := s4.keyTechnologies ++ ["Database ORM"]
        specialFeatures := s4.specialFeatures ++
          ["Database integration", "Data modeling"] }
    else s4
  if jsIncludes allDeps "jest" || jsIncludes allDeps "vitest" ||
      jsIncludes allDeps "cypress" then
    { s5 with
      keyTechnologies := s5.keyTechnologies ++ ["Testing Framework"]
      specialFeatures := s5.specialFeatures ++
        ["Automated testing", "Quality assurance"] }
  else s5

/-- The architecture detection over the rendered structure (lines 989-1007). -/
def archDetection (projectStructure : String) (s6 : AnalysisState) : AnalysisState :=
  if jsIncludes projectStructure "components" &&
      jsIncludes projectStructure "hooks" then
    { s6 with
      architectureNotes := "Modern component-based architecture with custom hooks" }
  else if jsIncludes projectStructure "controllers" &&
      jsIncludes projectStructure "models" then
    { s6 with
      architectureNotes := "MVC (Model-View-Controller) architecture pattern" }
  else if jsIncludes projectStructure "services" &&
      jsIncludes projectStructure "utils" then
    { s6 with
      architectureNotes := "Service-oriented architecture with utility functions" }
  else s6

/-- Embedding of `GroqService.performDeepProjectAnalysis`
(src/utils/badgeGenerator.ts lines 714-1019).  The filesystem-derived
`projectStructure` string (`analyzeProjectStructure`) is passed in as a
parameter; everything else is transcribed from the source: the derived
lowercase join strings (lines 717-722), then the category cascade, the
name/keyword overlay chain, the technology additions and the
architecture-note detection, in source order. -/
def performDeepProjectAnalysis (info : ProjectInfo)
    (projectStructure : String) : ProjectAnalysis :=
  let deps := jsToLower (joinSp info.dependencies)
  let devDeps := jsToLower (joinSp info.devDependencies)
  let allDeps := deps ++ " " ++ devDeps
  let scripts := jsToLower (joinSp info.scripts)
  let fileTypes := joinSp info.fileTypes
  let projectName := jsToLower info.name
  let s :=
    archDetection projectStructure
      (techAdditions allDeps fileTypes
        (nameOverlayStep projectName allDeps
          (categoryCascade allDeps scripts fileTypes)))
  { projectType := s.projectType
    mainPurpose := s.mainPurpose
    keyTechnologies := s.keyTechnologies
    frameworkDetails := s.frameworkDetails
    specialFeatures := s.specialFeatures
    architectureNotes := s.architectureNotes
    deploymentHints := s.deploymentHints
    projectStructure := projectStructure }

theorem categoryCascade_default (allDeps scripts fileTypes : String)
    (h1 : jsIncludes allDeps "express" = false)
    (h2 : jsIncludes allDeps "fastify" = false)
    (h3 : jsIncludes allDeps "koa" = false)
    (h4 : jsIncludes allDeps "nestjs" = false)
    (h5 : jsIncludes fileTypes "controller" = false)
    (h6 : jsIncludes scripts "start" = false)
    (h7 : jsIncludes allDeps "react" = false)
    (h8 : jsIncludes allDeps "vue" = false)
    (h9 : jsIncludes allDeps "angular" = false)
    (h10 : jsIncludes allDeps "@angular" = false)
    (h11 : jsIncludes allDeps "react-native" = false)
    (h12 : jsIncludes allDeps "expo" = false)
    (h13 : jsIncludes allDeps "electron" = false)
    (h14 : jsIncludes fileTypes ".py" = false)
    (h15 : jsIncludes allDeps "django" = false)
    (h16 : jsIncludes allDeps "flask" = false) :
    categoryCascade allDeps scripts fileTypes = {} := by
  unfold categoryCascade
  rw [if_neg (by simp [h1, h2, h3, h4, h5, h6])]
  rw [if_neg (by simp [h7])]
  rw [if_neg (by simp [h8])]
  rw [if_neg (by simp [h9, h10])]
  rw [if_neg (by simp [h11, h12])]
  rw [if_neg (by simp [h13])]
  rw [if_neg (by simp [h14, h15, h16])]

theorem techAdditions_projectType (allDeps fileTypes : String) (s : AnalysisState) :
    (techAdditions allDeps fileTypes s).projectType = s.projectType := by
  unfold techAdditions
  dsimp only
  repeat' split
  all_goals rfl

theorem techAdditions_mainPurpose (allDeps fileTypes : String) (s : AnalysisState) :
    (techAdditions allDeps fileTypes s).mainPurpose = s.mainPurpose := by
  unfold techAdditions
  dsimp only
  repeat' split
  all_goals rfl

theorem archDetection_projectType (ps : String) (s : AnalysisState) :
    (archDetection ps s).projectType = s.projectType := by
  unfold archDetection
  repeat' split
  all_goals rfl

theorem archDetection_mainPurpose (ps : String) (s : AnalysisState) :
    (archDetection ps s).mainPurpose = s.mainPurpose := by
  unfold archDetection
  repeat' split
  all_goals rfl

theorem analysis_projectType (info : ProjectInfo) (ps : String) :
    (performDeepProjectAnalysis info ps).projectType =
      (categoryCascade
        (jsToLower (joinSp info.dependencies) ++ " " ++
          jsToLower (joinSp info.devDependencies))
        (jsToLower (joinSp info.scripts)) (joinSp info.fileTypes)).projectType := by
  show (archDetection _ _).projectType = _
  rw [archDetection_projectType, techAdditions_projectType]
  rfl

theorem analysis_mainPurpose (info : ProjectInfo) (ps : String) :
    (performDeepProjectAnalysis info ps).mainPurpose =
      (applyNameOverlays (jsToLower info.name)
        (jsToLower (joinSp info.dependencies) ++ " " ++
          jsToLower (joinSp info.devDependencies))
        (categoryCascade
          (jsToLower (joinSp info.dependencies) ++ " " ++
            jsToLower (joinSp info.devDependencies))
          (jsToLower (joinSp info.scripts)) (joinSp info.fileTypes)).mainPurpose
        (categoryCascade
          (jsToLower (joinSp info.dependencies) ++ " " ++
            jsToLower (joinSp info.devDependencies))
          (jsToLower (joinSp info.scripts)) (joinSp info.fileTypes)).specialFeatures).1 := by
  show (archDetection _ _).mainPurpose = _
  rw [archDetection_mainPurpose, techAdditions_mainPurpose]
  rfl

/-! ### The model-retry loop of `GroqService.generateReadme`
(src/utils/badgeGenerator.ts lines 595-712) -/

/-- The fixed model list `GroqService.models`. -/
def models : List String :=
  ["moonshotai/kimi-k2-instruct", "llama-3.3-70b-versatile",
   "llama-3.1-8b-instant", "gemma2-9b-it"]

/-- The ordered candidate list: preferred model first, then the remaining
models in their fixed order (lines 612-615). -/
def modelsToTry (preferred : String) : List String :=
  preferred :: models.filter (fun m => m != preferred)

/-- Mock outcome of one `fetch` call to the external endpoint, as seen by the
loop body: an HTTP error status (`!response.ok`), a 2xx response whose JSON
body fails to parse, a 2xx response with `data?.choices?.[0]?.message?.content`
(`none` when the field is missing), or an exception from `fetch` itself. -/
inductive FetchOutcome where
  | httpError (status : Nat) : FetchOutcome
  | parseError : FetchOutcome
  | ok (content : Option String) : FetchOutcome
  | networkError (msg : String) : FetchOutcome

/-- The rethrow filter of the loop's catch block (lines 701-706):
`errorMessage.includes("Invalid API key") || errorMessage.includes("rate limit")`,
both checks case-sensitive. -/
def catchRethrows (msg : String) : Bool :=
  jsIncludes msg "Invalid API key" || jsIncludes msg "rate limit"

/-- The message thrown on HTTP 401 (line 662). -/
def authErrorMsg : String := "Invalid API key. Please check your Groq API key."

/-- The message thrown on HTTP 429 (line 664). -/
def rateLimitErrorMsg : String := "Rate limit exceeded. Please try again later."

/-- The generic exhaustion error thrown after the loop (line 711). -/
def exhaustedMsg : String := "All AI models failed. Check your API key and try again."

/-- The missing-credential error thrown before the loop (line 599). -/
def noKeyMsg : String := "No API key configured. Please set your Groq API key."

/-- Embedding of the `for (const model of modelsToTry)` loop of
`GroqService.generateReadme` (lines 617-711).  Each iteration runs the try
block; a thrown error is caught and either rethrown (ending the loop with
`Except.error`) when `catchRethrows` matches its message, or swallowed with
`continue`.  A 2xx response is returned only when its trimmed content has at
least 1000 characters. -/
def tryModels (fetch : String → FetchOutcome) : List String → Except String String
  | [] => .error exhaustedMsg
  | m :: rest =>
    match fetch m with
    | .httpError status =>
      if status = 401 then
        (if catchRethrows authErrorMsg then .error authErrorMsg
         else tryModels fetch rest)
      else if status = 429 then
        (if catchRethrows rateLimitErrorMsg then .error rateLimitErrorMsg
         else tryModels fetch rest)
      else tryModels fetch rest
    | .parseError => tryModels fetch rest
    | .ok none => tryModels fetch rest
    | .ok (some readme) =>
      if (jsTrim readme).data.length < 1000 then tryModels fetch rest
      else .ok (jsTrim readme)
    | .networkError msg =>
      if catchRethrows msg then .error msg else tryModels fetch rest

/-- Embedding of `GroqService.generateReadme` (lines 595-712): fail when no
API key is configured, otherwise run the model loop over `modelsToTry`.
The prompt construction does not influence control flow and is elided;
`fetch` maps each attempted model identifier to its outcome. -/
def generateReadme (apiKey : Option String) (preferred : String)
    (fetch : String → FetchOutcome) : Except String String :=
  match apiKey with
  | none => .error noKeyMsg
  | some _ => tryModels fetch (modelsToTry preferred)

end GroqService

/-! ## Orchestrator (src/extension.ts) -/

namespace Extension

/-- Embedding of `IntelliREADMEExtension.generateWithAI`
(src/extension.ts lines 246-271).  The first component is the document the
user receives; the second lists the user-visible warnings shown on the way.
On any error from the AI path the catch block shows exactly one warning
(chosen by substring tests on the error message) and returns the template
strategy's document. -/
def generateWithAI (groqResult : Except String String)
    (templateDoc : String) : String × List String :=
  match groqResult with
  | .ok doc => (doc, [])
  | .error msg =>
    let warning :=
      if jsIncludes msg "Invalid API key" then
        "❌ Invalid API key. Using templates instead."
      else if jsIncludes msg "rate limit" then
        "⚠️ Rate limit exceeded. Using templates instead."
      else
        "AI generation failed: " ++ msg ++ ". Using templates."
    (templateDoc, [warning])

end Extension

/-! ## JavaScript option semantics used by the template strategy -/

/-- JavaScript truthiness of an optional string field
(`undefined` and `""` are falsy). -/
def isTruthy (o : Option String) : Bool :=
  match o with
  | some s => s ≠ ""
  | none => false

/-- The JavaScript falsy-or `field || default` on an optional string. -/
def orDefault (o : Option String) (d : String) : String :=
  match o with
  | some s => if s = "" then d else s
  | none => d

/-- First occurrence split: `some (before, after)` when `pat` occurs in
`hay`, with `before ++ pat ++ after = hay` at the first occurrence. -/
def splitFirst : (hay pat : List Char) → Option (List Char × List Char)
  | hay, pat =>
    if pat.isPrefixOf hay then some ([], hay.drop pat.length)
    else
      match hay with
      | [] => none
      | c :: t =>
        match splitFirst t pat with
        | some (pre, post) => some (c :: pre, post)
        | none => none

/-- Model of JavaScript `String.prototype.replace` with a string pattern:
replaces the first occurrence only. -/
def replaceFirst (s pat repl : String) : String :=
  match splitFirst s.data pat.data with
  | some (pre, post) => ⟨pre ++ repl.data ++ post⟩
  | none => s

/-! ## ReadmeGenerator (src/templates/readmeGenerator.ts) -/

namespace ReadmeGenerator

/-- The separator class of `title.split(/[-_\s]/)`: hyphen, underscore or
whitespace (ASCII fragment of `\s`). -/
def isTitleSep (c : Char) : Bool :=
  c = '-' || c = '_' || isJsWs c

/-- `String.prototype.split` on a single-character class: splits at every
separator character and keeps empty segments, exactly as the JavaScript
regex split does. -/
def splitChars (p : Char → Bool) : List Char → List (List Char)
  | [] => [[]]
  | c :: cs =>
    if p c then [] :: splitChars p cs
    else
      match splitChars p cs with
      | [] => [[c]]
      | w :: ws => (c :: w) :: ws

/-- One word of `capitalizeTitle`:
`word.charAt(0).toUpperCase() + word.slice(1).toLowerCase()`
(`charAt(0)` of the empty word is the empty string). -/
def capWord : List Char → List Char
  | [] => []
  | c :: rest => upperChar c :: rest.map lowerChar

/-- Embedding of `ReadmeGenerator.capitalizeTitle`
(src/templates/readmeGenerator.ts lines 8-13). -/
def capitalizeTitle (title : String) : String :=
  joinSp ((splitChars isTitleSep title.data).map fun w => (⟨capWord w⟩ : String))

/-- Embedding of `ReadmeGenerator.generateFeatures` (lines 15-56). -/
def generateFeatures (info : ProjectInfo) : String :=
  let commonFeatures :=
    ["🎨 **Modern UI/UX** - Clean and intuitive user interface",
     "📱 **Responsive Design** - Works seamlessly on desktop and mobile devices",
     "⚡ **Fast Performance** - Optimized for speed and efficiency",
     "🔧 **Easy Configuration** - Simple setup and customization"]
  let reactFeatures :=
    ["🔄 **Real-time Updates** - Dynamic content updates",
     "🎯 **Component-based Architecture** - Reusable and maintainable components",
     "📊 **State Management** - Efficient state handling",
     "🌓 **Theme Support** - Light and dark mode toggle"]
  let nodeFeatures :=
    ["🔐 **Secure Authentication** - JWT-based authentication",
     "📡 **RESTful API** - Well-structured API endpoints",
     "💾 **Database Integration** - Efficient data management",
     "🔒 **Input Validation** - Secure data handling"]
  let features := commonFeatures
  let features :=
    if info.dependencies.any (fun dep => jsIncludes dep "react") then
      features ++ reactFeatures
    else features
  let features :=
    if info.dependencies.any
        (fun dep => jsIncludes dep "express" || jsIncludes dep "nestjs") then
      features ++ nodeFeatures
    else features
  let features :=
    if info.hasTests then
      features ++ ["✅ **Comprehensive Testing** - Full test coverage"]
    else features
  joinNl features

/-- Embedding of `ReadmeGenerator.generateTechStack` (lines 58-108). -/
def generateTechStack (info : ProjectInfo) : String :=
  let techStack := "### Frontend\n"
  let techStack :=
    if info.dependencies.any (fun dep => jsIncludes dep "react") then
      techStack ++ "- **Framework**: React with " ++
        (if info.devDependencies.any (fun dep => jsIncludes dep "vite") then
          "Vite" else "Create React App") ++ "\n"
    else techStack
  let techStack :=
    if info.fileTypes.contains ".ts" || info.fileTypes.contains ".tsx" then
      techStack ++ "- **Language**: TypeScript\n"
    else techStack ++ "- **Language**: JavaScript\n"
  let techStack :=
    if info.dependencies.any
        (fun dep => jsIncludes dep "tailwind" || jsIncludes dep "tailwindcss") then
      techStack ++ "- **Styling**: Tailwind CSS\n"
    else techStack
  let uiLibs := info.dependencies.filter fun dep =>
    jsIncludes dep "mui" || jsIncludes dep "antd" || jsIncludes dep "chakra" ||
      jsIncludes dep "mantine"
  let techStack :=
    match uiLibs with
    | [] => techStack
    | lib :: _ => techStack ++ "- **UI Components**: " ++ lib ++ "\n"
  let techStack := techStack ++ "\n### Development Tools\n"
  let techStack :=
    if info.devDependencies.any (fun dep => jsIncludes dep "vite") then
      techStack ++ "- **Build Tool**: Vite\n"
    else techStack
  let techStack :=
    if info.devDependencies.any (fun dep => jsIncludes dep "eslint") then
      techStack ++ "- **Linter**: ESLint\n"
    else techStack
  techStack

/-- One entry of a directory listing as `readdirSync(..., { withFileTypes:
true })` yields it; a directory entry carries its own listing. -/
structure Dirent where
  name : String
  isDir : Bool
  children : FSForest

/-- The listing of a forest as `Dirent`s. -/
def dirents : FSForest → List Dirent
  | .nil => []
  | .fileCons n rest => { name := n, isDir := false, children := .nil } :: dirents rest
  | .dirCons n cs rest => { name := n, isDir := true, children := cs } :: dirents rest

/-- The fixed skip list of `generateFolderStructure` (lines 122-132). -/
def folderSkipList : List String :=
  ["node_modules", ".git", ".vscode", "dist", "build", ".next", ".nuxt",
   "__pycache__", "coverage"]

/-- Lexicographic character-list order — the model of `localeCompare`
(codepoint order; locale tailoring is outside the model). -/
def charListLe : List Char → List Char → Bool
  | [], _ => true
  | _ :: _, [] => false
  | a :: as, b :: bs => if a = b then charListLe as bs else decide (a < b)

/-- The sort comparator of `generateFolderStructure` (lines 135-139):
directories before files, then by name. -/
def direntLe (a b : Dirent) : Bool :=
  if a.isDir && !b.isDir then true
  else if !a.isDir && b.isDir then false
  else charListLe a.name.data b.name.data

/-- Stable insertion for `sortDirents`. -/
def insertDirent (a : Dirent) : List Dirent → List Dirent
  | [] => [a]
  | b :: bs =>
    if direntLe a b && !direntLe b a then a :: b :: bs
    else b :: insertDirent a bs

/-- Stable sort by `direntLe` (model of `Array.prototype.sort` with the
comparator of lines 135-139). -/
def sortDirents : List Dirent → List Dirent
  | [] => []
  | a :: rest => insertDirent a (sortDirents rest)

/-- Embedding of `getFolderComment` (lines 165-182). -/
def getFolderComment (folderName : String) : String :=
  if folderName = "src" then " # Source code"
  else if folderName = "components" then " # React components"
  else if folderName = "pages" then " # Page components"
  else if folderName = "hooks" then " # Custom React hooks"
  else if folderName = "utils" then " # Utility functions"
  else if folderName = "api" then " # API services"
  else if folderName = "lib" then " # Library files"
  else if folderName = "styles" then " # Styling files"
  else if folderName = "assets" then " # Static assets"
  else if folderName = "public" then " # Public assets"
  else if folderName = "tests" then " # Test files"
  else if folderName = "__tests__" then " # Test files"
  else if folderName = "config" then " # Configuration files"
  else ""

/-- Embedding of `getFileComment` (lines 184-196). -/
def getFileComment (fileName : String) : String :=
  if fileName = "package.json" then " # Dependencies and scripts"
  else if fileName = "vite.config.ts" then " # Vite configuration"
  else if fileName = "vite.config.js" then " # Vite configuration"
  else if fileName = "tsconfig.json" then " # TypeScript configuration"
  else if fileName = "tailwind.config.js" then " # Tailwind configuration"
  else if fileName = "eslint.config.js" then " # ESLint configuration"
  else if fileName = ".env" then " # Environment variables"
  else if fileName = "README.md" then " # Project documentation"
  else ""

mutual

/-- Embedding of `ReadmeGenerator.generateFolderStructure`
(src/templates/readmeGenerator.ts lines 110-163).  `depth === 0` returns the
empty string; otherwise the listing is filtered by `folderSkipList` and
dotfiles, sorted directories-first, and rendered; a directory entry recurses
with `depth - 1`.  Unreadable directories (the catch branch) do not arise in
the tree model. -/
def generateFolderStructure (depth : Nat) (dir : FSForest) (pfx : String) : String :=
  match depth with
  | 0 => ""
  | d + 1 =>
    let filtered := (dirents dir).filter fun f =>
      !folderSkipList.contains f.name && !jsStartsWith f.name "."
    renderDirents d pfx (sortDirents filtered)

/-- One pass of the `.map(...).join("")` over the sorted listing; the last
entry gets the `└── ` glyph and a blank continuation prefix. -/
def renderDirents (d : Nat) (pfx : String) : List Dirent → String
  | [] => ""
  | f :: rest =>
    let isLast := rest.isEmpty
    let pointer := if isLast then "└── " else "├── "
    let newPfx := pfx ++ (if isLast then "  " else "│ ")
    let piece :=
      if f.isDir then
        pfx ++ pointer ++ f.name ++ "/" ++ getFolderComment f.name ++ "\n" ++
          generateFolderStructure d f.children newPfx
      else
        pfx ++ pointer ++ f.name ++ getFileComment f.name ++ "\n"
    piece ++ renderDirents d pfx rest

end

end ReadmeGenerator

/-! ## BadgeGenerator (src/utils/badgeGenerator.ts lines 3-37) -/

namespace BadgeGenerator

/-- Embedding of `BadgeGenerator.generateBadges`: conditional pushes in
source order, joined with newlines. -/
def generateBadges (info : ProjectInfo) : String :=
  let badges :=
    (if info.dependencies.any (fun dep => jsIncludes dep "react") then
      ["![React](https://img.shields.io/badge/React-18+-blue?style=flat-square&logo=react)"]
     else []) ++
    (if info.fileTypes.contains ".ts" || info.fileTypes.contains ".tsx" then
      ["![TypeScript](https://img.shields.io/badge/TypeScript-5+-blue?style=flat-square&logo=typescript)"]
     else []) ++
    (if info.devDependencies.any (fun dep => jsIncludes dep "vite") then
      ["![Vite](https://img.shields.io/badge/Vite-5+-purple?style=flat-square&logo=vite)"]
     else []) ++
    (if info.dependencies.any (fun dep => jsIncludes dep "next") then
      ["![Next.js](https://img.shields.io/badge/Next.js-14+-black?style=flat-square&logo=next.js)"]
     else [])
  joinNl badges

end BadgeGenerator

/-! ## TemplateService (src/services/TemplateService.ts) -/

namespace TemplateService

/-- The filesystem probes `TemplateService.generateReadme` and its helpers
make (`fs.existsSync` on the lockfiles and `.env.example`). -/
structure FsFacts where
  pnpmLock : Bool := false
  yarnLock : Bool := false
  envExample : Bool := false

/-- The interpolation of the document's H1 (src/services/TemplateService.ts
lines 23-27): the raw name when it already starts with `#`, otherwise
`🚀 ` and the capitalized title. -/
def titlePart (name : String) : String :=
  if jsStartsWith name "#" then name
  else "🚀 " ++ ReadmeGenerator.capitalizeTitle name

/-- Embedding of `generatePrerequisites` (lines 158-171). -/
def generatePrerequisites (info : ProjectInfo) : String :=
  let isReact := info.dependencies.any fun dep => jsIncludes dep "react"
  let isPython := info.fileTypes.contains ".py"
  if isPython then "- Python 3.8 or higher\n- pip package manager"
  else if isReact then "- Node.js 18.0 or higher\n- npm, pnpm, or yarn package manager"
  else "- Node.js 16.0 or higher\n- npm package manager"

/-- Embedding of `generateEnvironmentSetup` (lines 173-179). -/
def generateEnvironmentSetup (fs : FsFacts) : String :=
  if fs.envExample then
    "\n3. Set up environment variables:\n    ```bash\n    cp .env.example .env\n    # Edit .env with your configuration\n    ```\n"
  else ""

/-- Embedding of `generateUsageInstructions` (lines 181-197). -/
def generateUsageInstructions (info : ProjectInfo) : String :=
  let isReact := info.dependencies.any fun dep => jsIncludes dep "react"
  if isReact then
    "- **Development**: Start the development server and begin coding\n- **Components**: Edit components in the `src` folder\n- **Styling**: Customize styles and themes\n- **Build**: Create production builds for deployment\n- **Testing**: Run tests to ensure code quality"
  else
    "- **Development**: Use the available scripts for development\n- **Configuration**: Customize settings as needed\n- **Deployment**: Build and deploy using the provided scripts"

/-- Embedding of `generateAPIDocumentation` (lines 199-208); `repo` is the
truthy `projectInfo.repository`. -/
def generateAPIDocumentation (repo : String) : String :=
  "\n## 🌐 API Documentation\n\nThis application integrates with various APIs and services:\n- **Authentication**: JWT-based authentication system\n- **Data Management**: RESTful API endpoints\n- **Real-time Updates**: WebSocket connections for live data\n\nFor detailed API documentation, visit the [API docs](" ++
    repo ++ "/docs) or check the `/docs` folder.\n"

/-- The script-description lookup of `generateScriptDocumentation`
(lines 211-220), with the `"Custom script"` default. -/
def scriptDescription (script : String) : String :=
  if script = "dev" then "Start development server with hot reload"
  else if script = "start" then "Start production server"
  else if script = "build" then "Build the application for production"
  else if script = "test" then "Run test suite"
  else if script = "lint" then "Lint code and fix issues"
  else if script = "preview" then "Preview production build locally"
  else if script = "format" then "Format code with Prettier"
  else if script = "type-check" then "Run TypeScript type checking"
  else "Custom script"

/-- Embedding of `generateScriptDocumentation` (lines 210-233). -/
def generateScriptDocumentation (info : ProjectInfo) (fs : FsFacts) : String :=
  joinNl (info.scripts.map fun script =>
    let command :=
      if fs.pnpmLock then "pnpm " ++ script else "npm run " ++ script
    "- `" ++ command ++ "` - " ++ scriptDescription script)

/-- Embedding of `generateAcknowledgments` (lines 235-259). -/
def generateAcknowledgments (info : ProjectInfo) : String :=
  let acks :=
    (if info.dependencies.any (fun dep => jsIncludes dep "react") then
      ["- [React](https://reactjs.org/) for the amazing UI library"]
     else []) ++
    (if info.devDependencies.any (fun dep => jsIncludes dep "vite") then
      ["- [Vite](https://vitejs.dev/) for lightning-fast development"]
     else []) ++
    (if info.dependencies.any (fun dep => jsIncludes dep "tailwind") then
      ["- [Tailwind CSS](https://tailwindcss.com/) for utility-first styling"]
     else []) ++
    ["- Open source community for continuous inspiration"]
  joinNl acks

/-- Embedding of `extractGitHubUsername` (lines 261-264):
the regex `/github\.com\/([^\/]+)/` captures the run after the first
`github.com/` up to the next slash. -/
def extractGitHubUsername (repo : String) : String :=
  match splitFirst repo.data "github.com/".data with
  | some (_, rest) =>
    let user := rest.takeWhile fun c => c ≠ '/'
    if user.isEmpty then "@username" else "@" ++ (⟨user⟩ : String)
  | none => "@username"

/-- The license section interpolation (lines 124-130). -/
def licenseSection (license : Option String) : String :=
  if isTruthy license then
    "This project is licensed under the " ++ orDefault license "" ++
      " License - see the [LICENSE](LICENSE) file for details."
  else
    "This project is licensed under the MIT License - see the [LICENSE](LICENSE) file for details."

/-- The contact GitHub line interpolation (lines 135-141). -/
def contactGitHubLine (repository : Option String) : String :=
  if isTruthy repository then
    "- GitHub: [" ++ extractGitHubUsername (orDefault repository "") ++ "](" ++
      replaceFirst (orDefault repository "") ".git" "" ++ ")"
  else "- GitHub: [@username](https://github.com/username)"

/-- Embedding of `TemplateService.generateReadme`
(src/services/TemplateService.ts lines 10-156): the template literal,
transcribed segment by segment in source order.  `fs` carries the
`existsSync` probes and `tree` the workspace listing rendered into the
project-structure block. -/
def generateReadme (info : ProjectInfo) (fs : FsFacts) (tree : FSForest) : String :=
  let isReact := info.dependencies.any fun dep =>
    jsIncludes dep "react" || jsIncludes dep "next"
  let isVite :=
    (info.dependencies.any fun dep => jsIncludes dep "vite") ||
      (info.devDependencies.any fun dep => jsIncludes dep "vite")
  let badges := BadgeGenerator.generateBadges info
  "# " ++ titlePart info.name ++ "\n\n" ++
  orDefault info.description
    "A modern application built with cutting-edge technologies." ++ "\n\n" ++
  badges ++ "\n\n## 🚀 Live Demo\n" ++
  (if isTruthy info.homepage then
    "- **Application**: [" ++ orDefault info.homepage "" ++ "](" ++
      orDefault info.homepage "" ++ ")"
   else "- Live demo will be available soon") ++
  "\n\n## 📋 Table of Contents\n- [Features](#-features)\n- [Tech Stack](#-tech-stack)\n- [Installation](#-installation)\n- [Usage](#-usage)\n" ++
  (if isTruthy info.repository then "- [API Documentation](#-api-documentation)"
   else "") ++
  "\n- [Project Structure](#-project-structure)\n- [Contributing](#-contributing)\n- [License](#-license)\n- [Contact](#-contact)\n\n## ✨ Features\n\n" ++
  ReadmeGenerator.generateFeatures info ++
  "\n\n## 🛠 Tech Stack\n\n" ++
  ReadmeGenerator.generateTechStack info ++
  "\n\n## 📦 Installation\n\n### Prerequisites\n" ++
  generatePrerequisites info ++
  "\n\n### Installation\n\n1. Clone the repository:\n    ```bash\n    git clone " ++
  orDefault info.repository "https://github.com/username/repository.git" ++
  "\n    cd " ++ info.name ++
  "\n    ```\n\n2. Install dependencies:\n    ```bash\n    " ++
  FileUtils.getInstallCommand fs.pnpmLock fs.yarnLock ++
  "\n    ```\n\n" ++
  generateEnvironmentSetup fs ++
  "\n\n3. Run the project:\n    ```bash\n    " ++
  FileUtils.getStartCommand info fs.pnpmLock ++
  "\n    ```\n\n4. Open your browser:\n    ```bash\n    Navigate to `" ++
  (if isReact then "http://localhost:3000"
   else if isVite then "http://localhost:5173"
   else "http://localhost:3000") ++
  "`\n    ```\n\n## 🎯 Usage\n\n" ++
  generateUsageInstructions info ++ "\n\n" ++
  (if isTruthy info.repository then
    generateAPIDocumentation (orDefault info.repository "")
   else "") ++
  "\n\n## 📁 Project Structure\n\n```\n" ++
  ReadmeGenerator.generateFolderStructure 3 tree "" ++
  "\n```\n\n## 📝 Available Scripts\n\n" ++
  generateScriptDocumentation info fs ++
  "\n\n## 🤝 Contributing\n\n1. Fork the repository\n2. Create your feature branch (`git checkout -b feature/amazing-feature`)\n3. Commit your changes (`git commit -m 'Add some amazing feature'`)\n4. Push to the branch (`git push origin feature/amazing-feature`)\n5. Open a Pull Request\n\n## 📄 License\n\n" ++
  licenseSection info.license ++
  "\n\n## 👨‍💻 Contact\n\n" ++
  (if isTruthy info.author then "**" ++ orDefault info.author "" ++ "**"
   else "**Developer**") ++ "\n" ++
  contactGitHubLine info.repository ++
  "\n- Email: [developer@email.com](mailto:developer@email.com)\n\n## 🙏 Acknowledgments\n\n" ++
  generateAcknowledgments info ++
  "\n\n---\n\n<div align=\"center\">\n  Made with ❤️ by " ++
  orDefault info.author "Developer" ++
  "\n</div>\n"

end TemplateService

/-! ## Further substring lemmas -/

theorem isPrefixOf_append_ext {pat hay : List Char} (post : List Char)
    (h : pat.isPrefixOf hay = true) : pat.isPrefixOf (hay ++ post) = true := by
  induction pat generalizing hay with
  | nil => simp [List.isPrefixOf]
  | cons c cs ih =>
    cases hay with
    | nil => simp [List.isPrefixOf] at h
    | cons d ds =>
      simp only [List.isPrefixOf, Bool.and_eq_true] at h ⊢
      exact ⟨h.1, ih h.2⟩

theorem subList_append_ext {hay pat : List Char} (post : List Char)
    (h : subList hay pat = true) : subList (hay ++ post) pat = true := by
  induction hay with
  | nil =>
    unfold subList at h
    simp only [Bool.or_eq_true] at h
    rcases h with h | h
    · exact subList_of_isPrefixOf (isPrefixOf_append_ext post h)
    · cases h
  | cons c t ih =>
    unfold subList at h
    simp only [Bool.or_eq_true] at h
    rcases h with h | h
    · exact subList_of_isPrefixOf (isPrefixOf_append_ext post h)
    · exact subList_cons c (ih h)

theorem jsIncludes_append_l {a : String} (b : String) {pat : String}
    (h : jsIncludes a pat = true) : jsIncludes (a ++ b) pat = true := by
  unfold jsIncludes at h ⊢
  rw [data_append]
  exact subList_append_ext b.data h

theorem jsIncludes_append_r (a : String) {b pat : String}
    (h : jsIncludes b pat = true) : jsIncludes (a ++ b) pat = true := by
  unfold jsIncludes at h ⊢
  rw [data_append]
  exact subList_append_left h

theorem jsIncludes_self (pat : String) : jsIncludes pat pat = true := by
  unfold jsIncludes
  refine subList_of_isPrefixOf ?_
  have h := isPrefixOf_append_right pat.data []
  simp only [List.append_nil] at h
  exact h

/-! # Claim theorems -/

/-! ### C1 — the name/keyword overlay pass -/

/-- A project matching both the weather trigger and the todo/task trigger. -/
def c1Info : ProjectInfo := { name := "weather-todo" }

/-- C1 counterexample: for `weather-todo`, both the weather rule and the
todo/task rule trigger, yet `mainPurpose` is the FIRST matching rule's
purpose (weather), not the last matching rule's, and the todo rule's
features are not appended — the rules are an `if / else if` chain, not
independent unconditional overlays. -/
theorem c1_counterexample :
    jsIncludes (jsToLower c1Info.name) "weather" = true ∧
    jsIncludes (jsToLower c1Info.name) "todo" = true ∧
    (GroqService.performDeepProjectAnalysis c1Info "").mainPurpose =
      "A comprehensive weather application providing real-time weather data and forecasts" ∧
    (GroqService.performDeepProjectAnalysis c1Info "").specialFeatures.contains
      "Task creation and management" = false := by
  decide

/-- C1 (amended): the five name/keyword rules form one mutually exclusive
`if / else if` chain evaluated in the listed order — equivalent to taking
only the FIRST rule of `overlayRules` whose trigger matches: that rule sets
`mainPurpose` and appends its features, every later rule is skipped, and
with no match the state is unchanged. -/
theorem c1_overlay_first_match_wins (projectName allDeps mainPurpose : String)
    (specialFeatures : List String) :
    GroqService.applyNameOverlays projectName allDeps mainPurpose specialFeatures =
      GroqService.applyFirstOverlay projectName allDeps mainPurpose specialFeatures := by
  unfold GroqService.applyNameOverlays GroqService.applyFirstOverlay
    GroqService.overlayRules
  cases h1 : (jsIncludes projectName "weather" || jsIncludes projectName "klimate" ||
      jsIncludes allDeps "weather") <;>
    cases h2 : (jsIncludes projectName "todo" || jsIncludes projectName "task") <;>
      cases h3 : (jsIncludes projectName "ecommerce" || jsIncludes projectName "shop" ||
          jsIncludes allDeps "stripe") <;>
        cases h4 : (jsIncludes projectName "blog" || jsIncludes allDeps "contentful") <;>
          cases h5 : (jsIncludes projectName "chat" || jsIncludes projectName "message" ||
              jsIncludes allDeps "socket.io") <;>
            simp [List.find?, h1, h2, h3, h4, h5]

/-! ### C2 — propagation of 401 and 429 in the AI strategy -/

/-- The failing input of C2: every model attempt answers HTTP 429. -/
def c2Fetch429 : String → GroqService.FetchOutcome := fun _ => .httpError 429

/-- C2: evaluation of the embedded `generateReadme` at the failing input.
On HTTP 429 the loop throws `"Rate limit exceeded. Please try again later."`,
but the catch block's rethrow filter checks for the lowercase substring
`"rate limit"`, which that message does not contain, so the error is
swallowed and the loop continues through all four models, ending in the
generic exhaustion error — against the documented intent of the filter
(and of the orchestrator's matching `"rate limit"` warning branch).
HTTP 401 by contrast is rethrown at once, as its message does contain the
checked substring `"Invalid API key"`. -/
theorem c2_rate_limit_swallowed :
    GroqService.generateReadme (some "gsk_testkey") "moonshotai/kimi-k2-instruct"
        c2Fetch429 = .error GroqService.exhaustedMsg ∧
    GroqService.catchRethrows GroqService.rateLimitErrorMsg = false ∧
    GroqService.catchRethrows GroqService.authErrorMsg = true ∧
    GroqService.generateReadme (some "gsk_testkey") "moonshotai/kimi-k2-instruct"
        (fun _ => .httpError 401) = .error GroqService.authErrorMsg :=
  ⟨rfl, by decide, by decide, rfl⟩

/-! ### C3 — depth bound of the file-type and test-file scans -/

/-- A workspace whose only file, `x.py`, sits at depth 3
(root / a / b / x.py). -/
def c3ExtTree : FSForest :=
  .dirCons "a" (.dirCons "b" (.fileCons "x.py" .nil) .nil) .nil

/-- A workspace whose only test-named file sits at depth 3. -/
def c3TestTree : FSForest :=
  .dirCons "a" (.dirCons "b" (.fileCons "data.test.js" .nil) .nil) .nil

/-- C3 counterexample: `truncF 1` keeps exactly the entries at depth ≤ 2
(root's children and grandchildren), the region the claim says is the only
one visited.  Were the claim true, both scans would be invariant under that
truncation; instead, the file-type scan records `.py` from a file at depth 3
and the test scan detects a depth-3 test file, while on the truncated trees
they return nothing. -/
theorem c3_counterexample :
    FileUtils.getFileTypes c3ExtTree = [".py"] ∧
    FileUtils.getFileTypes (FileUtils.truncF 1 c3ExtTree) = [] ∧
    FileUtils.hasTestFiles c3TestTree = true ∧
    FileUtils.hasTestFiles (FileUtils.truncF 1 c3TestTree) = false :=
  ⟨rfl, rfl, rfl, rfl⟩

/-- C3 (amended): the true recursion bound is depth ≤ 3.  Directories are
scanned down to depth 2, so their entries — at depth up to 3 below the root —
are read: extensions of depth-3 files are recorded and test matches on
depth-3 names are detected.  Nothing below depth 3 is visited: both scans
are invariant under truncating the tree with budget 2 (`truncF 2`), which
keeps entries at depth ≤ 3 and drops the children of depth-3 directories. -/
theorem c3_depth_three_bound (f : FSForest) :
    FileUtils.getFileTypes (FileUtils.truncF 2 f) = FileUtils.getFileTypes f ∧
    FileUtils.hasTestFiles (FileUtils.truncF 2 f) = FileUtils.hasTestFiles f :=
  ⟨FileUtils.scanF_truncF f 0 2 [] rfl, FileUtils.checkF_truncF f 0 2 rfl⟩

/-! ### C4 — the generic classification fallback -/

/-- Whatever the overlay chain does to a non-empty purpose, the result is
still non-empty (every overlay purpose is a non-empty literal). -/
theorem applyNameOverlays_fst_ne_empty (pn ad d : String) (f : List String)
    (hd : d ≠ "") : (GroqService.applyNameOverlays pn ad d f).1 ≠ "" := by
  unfold GroqService.applyNameOverlays
  repeat' split
  all_goals simp_all

/-- A project with dependencies but no framework signal: none of classifier
rules 1-7 matches. -/
def c4Info : ProjectInfo :=
  { name := "myproj", dependencies := ["lodash"], scripts := ["build"],
    fileTypes := [".js"] }

/-- C4 counterexample: with the non-framework dependency `lodash` (and no
other rule-1..7 signal), `performDeepProjectAnalysis` keeps the default
category `"Application"` — not the claimed `"Node.js"`.  The
`"Node.js"`/`"Software"` labels are produced by the separate
`detectFramework`, not by the classifier. -/
theorem c4_counterexample :
    c4Info.dependencies ≠ [] ∧
    (GroqService.performDeepProjectAnalysis c4Info "").projectType = "Application" ∧
    (GroqService.performDeepProjectAnalysis c4Info "").projectType ≠ "Node.js" := by
  decide

/-- C4 (amended): when no classifier rule 1-7 matches, `classify` keeps the
single generic fallback category `"Application"` whether or not the
dependency lists are empty, with a non-empty `mainPurpose`; it is the
separate framework detector that distinguishes `"Node.js"` (some dependency
or devDependency exists) from `"Software"` (none), under the framework
detector's own no-signal condition. -/
theorem c4_generic_fallback (info : ProjectInfo) (struct : String)
    (hc : GroqService.categorySignal info = false) :
    (GroqService.performDeepProjectAnalysis info struct).projectType = "Application" ∧
    (GroqService.performDeepProjectAnalysis info struct).mainPurpose ≠ "" ∧
    (ProjectAnalyzer.frameworkSignal info = false →
      ProjectAnalyzer.detectFramework info =
        (if (info.dependencies ++ info.devDependencies).length > 0 then "Node.js"
         else "Software")) := by
  simp only [GroqService.categorySignal, Bool.or_eq_false_iff, and_assoc] at hc
  obtain ⟨h1, h2, h3, h4, h5, h6, h7, h8, h9, h10, h11, h12, h13, h14, h15, h16⟩ := hc
  refine ⟨?_, ?_, fun hf => ProjectAnalyzer.detectFramework_fallback info hf⟩
  · rw [GroqService.analysis_projectType, GroqService.categoryCascade_default _ _ _
      h1 h2 h3 h4 h5 h6 h7 h8 h9 h10 h11 h12 h13 h14 h15 h16]
  · rw [GroqService.analysis_mainPurpose, GroqService.categoryCascade_default _ _ _
      h1 h2 h3 h4 h5 h6 h7 h8 h9 h10 h11 h12 h13 h14 h15 h16]
    exact applyNameOverlays_fst_ne_empty _ _ _ _ (by decide)

/-- Witness for C4 at the concrete `lodash` project. -/
theorem c4_generic_fallback_witness :
    (GroqService.performDeepProjectAnalysis c4Info "").projectType = "Application" ∧
    (GroqService.performDeepProjectAnalysis c4Info "").mainPurpose ≠ "" ∧
    ProjectAnalyzer.detectFramework c4Info =
      (if (c4Info.dependencies ++ c4Info.devDependencies).length > 0 then "Node.js"
       else "Software") :=
  ⟨(c4_generic_fallback c4Info "" (by decide)).1,
   (c4_generic_fallback c4Info "" (by decide)).2.1,
   (c4_generic_fallback c4Info "" (by decide)).2.2 (by decide)⟩

/-! ### C5 — `express` wins over `react` by rule order -/

/-- A member of a dependency list occurs in the lowercased space-join the
classifier searches (for a pattern that lower-casing fixes). -/
theorem jsIncludes_lower_join {x : String} {l : List String} (hmem : x ∈ l)
    (hx : x.data.map lowerChar = x.data) :
    jsIncludes (jsToLower (joinSp l)) x = true := by
  obtain ⟨pre, post, hp⟩ := joinSp_decomp hmem
  unfold jsIncludes
  rw [jsToLower_data, hp, List.map_append, List.map_append, hx]
  exact subList_sandwich _ _ _

/-- C5: whenever both `express` and `react` are dependency names, the
classifier's category is `"Backend API"`: the backend rule is evaluated
before the react rule, so the `react` signal never gets a say. -/
theorem c5_express_beats_react (info : ProjectInfo) (struct : String)
    (hex : "express" ∈ info.dependencies) (_hre : "react" ∈ info.dependencies) :
    (GroqService.performDeepProjectAnalysis info struct).projectType = "Backend API" := by
  have ha : jsIncludes
      (jsToLower (joinSp info.dependencies) ++ " " ++
        jsToLower (joinSp info.devDependencies)) "express" = true :=
    jsIncludes_append_l _ (jsIncludes_append_l _ (jsIncludes_lower_join hex (by decide)))
  rw [GroqService.analysis_projectType]
  unfold GroqService.categoryCascade
  rw [if_pos (by simp [ha])]

/-- Witness for C5 at dependencies `["express", "react"]`. -/
theorem c5_express_beats_react_witness :
    (GroqService.performDeepProjectAnalysis
      { name := "api", dependencies := ["express", "react"] } "").projectType =
      "Backend API" :=
  c5_express_beats_react _ "" (by decide) (by decide)

/-! ### C6 — model order and the content-length threshold -/

/-- A response whose trimmed content is exactly 1000 characters long. -/
def c6Content1000 : String := ⟨List.replicate 1000 'a'⟩

/-- Trimming a whitespace-free uniform string changes nothing. -/
theorem jsTrim_replicate (n : Nat) (c : Char) (h : isJsWs c = false) :
    jsTrim (⟨List.replicate n c⟩ : String) = ⟨List.replicate n c⟩ := by
  unfold jsTrim
  show (⟨((List.replicate n c |> List.dropWhile isJsWs).reverse.dropWhile
    isJsWs).reverse⟩ : String) = _
  rw [List.dropWhile_replicate, if_neg (by simp [h]), List.reverse_replicate,
    List.dropWhile_replicate, if_neg (by simp [h]), List.reverse_replicate]

/-- C6 counterexample: content of length exactly 1000 does not *exceed* the
1000-character minimum, so under the claim every model would be skipped and
the loop would end in the exhaustion error; the code instead accepts it
(the test is `trimmed length < 1000 → skip`, so ≥ 1000 passes). -/
theorem c6_counterexample :
    c6Content1000.data.length = 1000 ∧
    GroqService.tryModels (fun _ => .ok (some c6Content1000))
      (GroqService.modelsToTry "moonshotai/kimi-k2-instruct") = .ok c6Content1000 ∧
    (Except.ok c6Content1000 : Except String String) ≠ .error GroqService.exhaustedMsg := by
  have hdata : c6Content1000.data = List.replicate 1000 'a' := rfl
  have htrim : jsTrim c6Content1000 = c6Content1000 := jsTrim_replicate 1000 'a' rfl
  have hlen : (jsTrim c6Content1000).data.length = 1000 := by
    rw [htrim, hdata, List.length_replicate]
  refine ⟨by rw [hdata, List.length_replicate], ?_, fun h => Except.noConfusion h⟩
  have hlen0 : c6Content1000.data.length = 1000 := by
    rw [hdata, List.length_replicate]
  show GroqService.tryModels _ (_ :: _) = _
  simp only [GroqService.tryModels, hlen, htrim, hlen0, Nat.lt_irrefl, if_false]

/-- C6 (amended): the loop tries the preferred model first and the remaining
models in their fixed order; a model is skipped exactly when its trimmed
content length is below 1000 (a trimmed length of 1000 or more is accepted):
if the first model's content trims below 1000 and the second's trims to at
least 1000, the second model's trimmed content is returned with no error;
and when every model fails, the loop ends in the generic exhaustion error. -/
theorem c6_model_order_and_threshold :
    (∀ preferred : String, GroqService.modelsToTry preferred =
      preferred :: GroqService.models.filter (fun m => m != preferred)) ∧
    (∀ (fetch : String → GroqService.FetchOutcome) (m1 m2 : String)
      (rest : List String) (c1 c2 : String),
      fetch m1 = .ok (some c1) → (jsTrim c1).data.length < 1000 →
      fetch m2 = .ok (some c2) → 1000 ≤ (jsTrim c2).data.length →
      GroqService.tryModels fetch (m1 :: m2 :: rest) = .ok (jsTrim c2)) ∧
    (∀ (fetch : String → GroqService.FetchOutcome) (ms : List String),
      (∀ m ∈ ms, fetch m = .httpError 500) →
      GroqService.tryModels fetch ms = .error GroqService.exhaustedMsg) := by
  refine ⟨fun _ => rfl, ?_, ?_⟩
  · intro fetch m1 m2 rest c1 c2 hm1 hc1 hm2 hc2
    simp only [GroqService.tryModels, hm1, hm2, if_pos hc1,
      if_neg (Nat.not_lt.mpr hc2)]
  · intro fetch ms h
    induction ms with
    | nil => rfl
    | cons m rest ih =>
      have hm := h m (List.mem_cons_self m rest)
      simp only [GroqService.tryModels, hm, if_neg (by decide : ¬(500 = 401)),
        if_neg (by decide : ¬(500 = 429))]
      exact ih fun x hx => h x (List.mem_cons_of_mem m hx)

/-- The mock call of the C6 witness: short content from the preferred model,
2000 characters from every other model. -/
def c6Fetch : String → GroqService.FetchOutcome := fun m =>
  if m = "moonshotai/kimi-k2-instruct" then .ok (some "short readme")
  else .ok (some (⟨List.replicate 2000 'b'⟩ : String))

/-- Witness for C6: the second and third conjuncts applied at concrete
inputs. -/
theorem c6_model_order_and_threshold_witness :
    GroqService.tryModels c6Fetch
      ("moonshotai/kimi-k2-instruct" :: "llama-3.3-70b-versatile" ::
        ["llama-3.1-8b-instant", "gemma2-9b-it"]) =
      .ok (jsTrim (⟨List.replicate 2000 'b'⟩ : String)) ∧
    GroqService.tryModels (fun _ => .httpError 500)
      (GroqService.modelsToTry "moonshotai/kimi-k2-instruct") =
      .error GroqService.exhaustedMsg :=
  ⟨c6_model_order_and_threshold.2.1 c6Fetch _ _ _ _ _ rfl (by decide) rfl
      (by rw [jsTrim_replicate 2000 'b' rfl]
          show 1000 ≤ (List.replicate 2000 'b').length
          rw [List.length_replicate]
          omega),
   c6_model_order_and_threshold.2.2 _ _ fun _ _ => rfl⟩

/-! ### C7 — AI-path failures fall back to the template document -/

/-- C7: whenever the AI strategy ends in an error — missing credential,
auth error, rate-limit error or model exhaustion all included — the
orchestrator's `generateWithAI` hands the user the template strategy's
document and surfaces exactly one user-visible warning; the failure is
never fatal. -/
theorem c7_ai_failure_never_fatal (apiKey : Option String) (preferred : String)
    (fetch : String → GroqService.FetchOutcome) (templateDoc msg : String)
    (h : GroqService.generateReadme apiKey preferred fetch = .error msg) :
    (Extension.generateWithAI (GroqService.generateReadme apiKey preferred fetch)
      templateDoc).1 = templateDoc ∧
    (Extension.generateWithAI (GroqService.generateReadme apiKey preferred fetch)
      templateDoc).2.length = 1 := by
  rw [h]
  exact ⟨rfl, rfl⟩

/-- Witness for C7 with no API key configured. -/
theorem c7_ai_failure_never_fatal_witness :
    (Extension.generateWithAI
      (GroqService.generateReadme none "moonshotai/kimi-k2-instruct"
        (fun _ => .httpError 500)) "TEMPLATE").1 = "TEMPLATE" ∧
    (Extension.generateWithAI
      (GroqService.generateReadme none "moonshotai/kimi-k2-instruct"
        (fun _ => .httpError 500)) "TEMPLATE").2.length = 1 :=
  c7_ai_failure_never_fatal none "moonshotai/kimi-k2-instruct" _ "TEMPLATE"
    GroqService.noKeyMsg rfl

/-! ### C8 — analyzer defaults with a missing or unparsable manifest -/

/-- C8: with no `package.json`, the analyzer's metadata keeps the folder
basename as `name` and empty dependency, devDependency and script lists;
with an unparsable `package.json`, `JSON.parse` throws before any field
assignment, so every manifest-derived field likewise keeps its default. -/
theorem c8_manifest_defaults (workspaceName : String) (fileTypes : List String)
    (hasTests : Bool) :
    ((ProjectAnalyzer.analyzeProject workspaceName .absent fileTypes hasTests).name =
        workspaceName ∧
      (ProjectAnalyzer.analyzeProject workspaceName .absent fileTypes hasTests).dependencies = [] ∧
      (ProjectAnalyzer.analyzeProject workspaceName .absent fileTypes hasTests).devDependencies = [] ∧
      (ProjectAnalyzer.analyzeProject workspaceName .absent fileTypes hasTests).scripts = [] ∧
      (ProjectAnalyzer.analyzeProject workspaceName .absent fileTypes hasTests).description = none ∧
      (ProjectAnalyzer.analyzeProject workspaceName .absent fileTypes hasTests).license = none ∧
      (ProjectAnalyzer.analyzeProject workspaceName .absent fileTypes hasTests).repository = none ∧
      (ProjectAnalyzer.analyzeProject workspaceName .absent fileTypes hasTests).version = none ∧
      (ProjectAnalyzer.analyzeProject workspaceName .absent fileTypes hasTests).author = none ∧
      (ProjectAnalyzer.analyzeProject workspaceName .absent fileTypes hasTests).homepage = none) ∧
    ((ProjectAnalyzer.analyzeProject workspaceName .unparsable fileTypes hasTests).name =
        workspaceName ∧
      (ProjectAnalyzer.analyzeProject workspaceName .unparsable fileTypes hasTests).dependencies = [] ∧
      (ProjectAnalyzer.analyzeProject workspaceName .unparsable fileTypes hasTests).devDependencies = [] ∧
      (ProjectAnalyzer.analyzeProject workspaceName .unparsable fileTypes hasTests).scripts = [] ∧
      (ProjectAnalyzer.analyzeProject workspaceName .unparsable fileTypes hasTests).description = none ∧
      (ProjectAnalyzer.analyzeProject workspaceName .unparsable fileTypes hasTests).license = none ∧
      (ProjectAnalyzer.analyzeProject workspaceName .unparsable fileTypes hasTests).repository = none ∧
      (ProjectAnalyzer.analyzeProject workspaceName .unparsable fileTypes hasTests).version = none ∧
      (ProjectAnalyzer.analyzeProject workspaceName .unparsable fileTypes hasTests).author = none ∧
      (ProjectAnalyzer.analyzeProject workspaceName .unparsable fileTypes hasTests).homepage = none) :=
  ⟨⟨rfl, rfl, rfl, rfl, rfl, rfl, rfl, rfl, rfl, rfl⟩,
   ⟨rfl, rfl, rfl, rfl, rfl, rfl, rfl, rfl, rfl, rfl⟩⟩

/-! ### C9 — the template document contains the name, and MIT by default -/

/-- C9: the templated document always contains the project name verbatim
(the `cd` line of the installation section interpolates it untouched), and
when `license` is undefined the license section's text contains the literal
word `MIT`. -/
theorem c9_template_contains_name_and_mit (info : ProjectInfo)
    (fs : TemplateService.FsFacts) (tree : FSForest) :
    jsIncludes (TemplateService.generateReadme info fs tree) info.name = true ∧
    (info.license = none →
      jsIncludes (TemplateService.generateReadme info fs tree) "MIT" = true) := by
  constructor
  · unfold jsIncludes
    simp only [TemplateService.generateReadme, data_append, List.append_assoc]
    repeat first
      | exact subList_of_isPrefixOf (isPrefixOf_append_right _ _)
      | apply subList_append_left
  · intro h
    have hls : TemplateService.licenseSection info.license =
        "This project is licensed under the MIT License - see the [LICENSE](LICENSE) file for details." := by
      rw [h]
      rfl
    unfold jsIncludes
    simp only [TemplateService.generateReadme, hls, data_append, List.append_assoc]
    repeat first
      | exact subList_append_ext _ (by decide)
      | apply subList_append_left

/-- A concrete project with no license for the C9 witness. -/
def c9Info : ProjectInfo := { name := "my-app" }

/-- Witness for C9 at a license-less project. -/
theorem c9_template_contains_name_and_mit_witness :
    jsIncludes (TemplateService.generateReadme c9Info {} .nil) c9Info.name = true ∧
    jsIncludes (TemplateService.generateReadme c9Info {} .nil) "MIT" = true :=
  ⟨(c9_template_contains_name_and_mit c9Info {} .nil).1,
   (c9_template_contains_name_and_mit c9Info {} .nil).2 rfl⟩

/-! ### C10 — the H1 title line of the templated document -/

/-- C10: the document opens with `# ` followed by the raw name when the name
already starts with `#`, and otherwise by `🚀 ` and `capitalizeTitle`'s
result — which splits on hyphens, underscores and whitespace, upper-cases
each word's first character, lower-cases the rest and joins with single
spaces — so the heading need not contain the project name verbatim
(`my-app` becomes `# 🚀 My App`). -/
theorem c10_title_heading (info : ProjectInfo) (fs : TemplateService.FsFacts)
    (tree : FSForest) :
    (∃ rest : List Char,
      (TemplateService.generateReadme info fs tree).data =
        "# ".data ++ ((TemplateService.titlePart info.name).data ++ rest)) ∧
    (∀ name : String, TemplateService.titlePart name =
      if jsStartsWith name "#" then name
      else "🚀 " ++ ReadmeGenerator.capitalizeTitle name) ∧
    ReadmeGenerator.capitalizeTitle "my-app_demo x" = "My App Demo X" ∧
    jsIncludes ("# " ++ TemplateService.titlePart "my-app") "my-app" = false := by
  refine ⟨?_, fun _ => rfl, by decide, by decide⟩
  refine ⟨?_, ?_⟩
  on_goal 2 =>
    simp only [TemplateService.generateReadme, data_append, List.append_assoc]
    exact rfl

end IntelliReadme
